import Mathlib

/-!
Verification of two Bevy source fragments:

* `crates/bevy_reflect/bevy_reflect_derive/src/registration.rs` —
  the derive-macro helper `impl_get_type_registration`, which emits the
  `GetTypeRegistration` impl for a reflected type.
* `examples/ecs/component_hooks.rs` — the component-lifecycle-hooks
  example (`setup` and the three hook closures it registers).

The emitter is embedded by representing the token stream it produces as a
structured syntax tree (`GeneratedImpl`): the `quote!` template in the
source emits one `impl` block containing exactly one function, whose body
is a fixed-order sequence of registration statements.  The pieces of the
derive crate that are not part of the given source (`ReflectMeta`,
`WhereClauseOptions`, `SerializationDataDef`) appear here only through the
accessors `registration.rs` calls on them, as plain data carriers.
-/

namespace BevyReflectDerive

/-- Model of `ReflectMeta` (from `derive_data.rs`, not part of the given
source): a record of exactly the accessors `impl_get_type_registration`
uses — `type_path()`, `bevy_reflect_path()`, `attrs().idents()`,
`type_path().generics().split_for_impl()` and
`from_reflect().should_auto_derive()`. -/
structure ReflectMeta where
  type_path : String
  impl_generics : String
  ty_generics : String
  where_clause : String
  bevy_reflect_path : String
  registration_data_idents : List String
  from_reflect_should_auto_derive : Bool
  deriving DecidableEq, Repr

/-- Model of `WhereClauseOptions` (from `utility.rs`, not part of the given
source): the emitter only calls `extend_where_clause` on it, so it is
modelled as that function. -/
structure WhereClauseOptions where
  extend_where_clause : String → String

/-- Model of `SerializationDataDef` (from `serialization.rs`, not part of
the given source): the emitter only calls `as_serialization_data`, which
takes the `bevy_reflect_path` and yields the constructor tokens. -/
structure SerializationDataDef where
  as_serialization_data : String → String

/-- One statement of the generated `get_type_registration` body, mirroring
the lines of the `quote!` template in `registration.rs`. -/
inductive RegStmt where
  /-- `let mut registration = TypeRegistration::of::<Self>();` -/
  | letRegistrationOfSelf
  /-- `registration.insert::<ReflectFromPtr>(FromType::<Self>::from_type());` -/
  | insertReflectFromPtr
  /-- `registration.insert::<ReflectFromReflect>(FromType::<Self>::from_type());` -/
  | insertReflectFromReflect
  /-- `registration.insert::<serde::SerializationData>(#serialization_data);` -/
  | insertSerializationData (tokens : String)
  /-- `registration.insert::<#ident>(FromType::<Self>::from_type());` -/
  | insertRegistrationData (ident : String)
  /-- trailing `registration` expression returning the value -/
  | returnRegistration
  deriving DecidableEq, Repr

/-- A function item inside the generated impl block. -/
structure GeneratedFn where
  name : String
  params : List String
  return_type : String
  body : List RegStmt
  deriving DecidableEq, Repr

/-- The generated `impl ... GetTypeRegistration for ...` block — the
structured form of the token stream returned by
`impl_get_type_registration`. -/
structure GeneratedImpl where
  attrs : List String
  impl_generics : String
  trait_path : String
  self_type_path : String
  ty_generics : String
  where_reflect_clause : String
  fns : List GeneratedFn

/-- Embedding of `impl_get_type_registration` from `registration.rs`:
reads the metadata accessors, builds the optional `ReflectFromReflect` and
`SerializationData` insertion statements, and assembles the single-impl,
single-function token stream of the `quote!` template. -/
def impl_get_type_registration (meta : ReflectMeta)
    (where_clause_options : WhereClauseOptions)
    (serialization_data : Option SerializationDataDef) : GeneratedImpl :=
  let type_path := meta.type_path
  let bevy_reflect_path := meta.bevy_reflect_path
  let registration_data := meta.registration_data_idents
  let where_reflect_clause :=
    where_clause_options.extend_where_clause meta.where_clause
  let from_reflect_data : Option RegStmt :=
    if meta.from_reflect_should_auto_derive then
      some RegStmt.insertReflectFromReflect
    else
      none
  let serialization_stmt : Option RegStmt :=
    serialization_data.map fun data =>
      RegStmt.insertSerializationData
        (data.as_serialization_data bevy_reflect_path)
  { attrs := ["allow(unused_mut)"]
    impl_generics := meta.impl_generics
    trait_path := bevy_reflect_path ++ "::GetTypeRegistration"
    self_type_path := type_path
    ty_generics := meta.ty_generics
    where_reflect_clause := where_reflect_clause
    fns := [{ name := "get_type_registration"
              params := []
              return_type := bevy_reflect_path ++ "::TypeRegistration"
              body :=
                [RegStmt.letRegistrationOfSelf, RegStmt.insertReflectFromPtr]
                  ++ from_reflect_data.toList
                  ++ serialization_stmt.toList
                  ++ registration_data.map RegStmt.insertRegistrationData
                  ++ [RegStmt.returnRegistration] }] }

/-- All statements of all function bodies of a generated impl block. -/
def GeneratedImpl.registration_body (g : GeneratedImpl) : List RegStmt :=
  (g.fns.map GeneratedFn.body).flatten

/-- Whether a generated statement is a `SerializationData` insertion. -/
def RegStmt.is_serialization_insert : RegStmt → Bool
  | RegStmt.insertSerializationData _ => true
  | _ => false

theorem any_serialization_of_map_idents_false (l : List String) :
    (l.map RegStmt.insertRegistrationData).any RegStmt.is_serialization_insert
      = false := by
  induction l with
  | nil => rfl
  | cons a t ih =>
    simp only [List.map_cons, List.any_cons, ih,
      RegStmt.is_serialization_insert, Bool.false_or, Bool.or_false]

/-- C1: the generated registration body contains a `SerializationData`
insertion if and only if the optional serialization descriptor is `some`;
in particular, with `none` the generated code has no such insertion. -/
theorem serialization_insert_iff_descriptor_some (meta : ReflectMeta)
    (wc : WhereClauseOptions) (sd : Option SerializationDataDef) :
    ((impl_get_type_registration meta wc sd).registration_body.any
        RegStmt.is_serialization_insert) = sd.isSome := by
  cases sd <;>
    cases h : meta.from_reflect_should_auto_derive <;>
      simp [impl_get_type_registration, GeneratedImpl.registration_body,
        RegStmt.is_serialization_insert, h,
        any_serialization_of_map_idents_false]

/-- C2: for every input, the emitted impl block defines exactly one
function, named `get_type_registration`, with zero parameters and return
type `TypeRegistration` (at the configured `bevy_reflect` path). -/
theorem generates_single_zero_arg_factory (meta : ReflectMeta)
    (wc : WhereClauseOptions) (sd : Option SerializationDataDef) :
    ∃ f : GeneratedFn,
      (impl_get_type_registration meta wc sd).fns = [f] ∧
      f.name = "get_type_registration" ∧
      f.params = [] ∧
      f.return_type = meta.bevy_reflect_path ++ "::TypeRegistration" :=
  ⟨_, rfl, rfl, rfl, rfl⟩

/-- C6: the emitter is deterministic — it is a pure function of the type
metadata, the where-clause options and the optional serialization
descriptor, with no other branching input, so equal inputs (the
from-reflect auto-derive setting is part of the metadata) give equal token
streams. -/
theorem impl_get_type_registration_deterministic
    (m₁ m₂ : ReflectMeta) (w₁ w₂ : WhereClauseOptions)
    (s₁ s₂ : Option SerializationDataDef)
    (hm : m₁ = m₂) (hw : w₁ = w₂) (hs : s₁ = s₂) :
    impl_get_type_registration m₁ w₁ s₁ = impl_get_type_registration m₂ w₂ s₂ := by
  subst hm
  subst hw
  subst hs
  rfl

/-- A sample `ReflectMeta` input (a plain struct with one registration-data
attribute and from-reflect auto-derive enabled). -/
def sample_meta : ReflectMeta :=
  { type_path := "Foo"
    impl_generics := ""
    ty_generics := ""
    where_clause := ""
    bevy_reflect_path := "bevy_reflect"
    registration_data_idents := ["ReflectDefault"]
    from_reflect_should_auto_derive := true }

/-- A sample `WhereClauseOptions` input. -/
def sample_where_clause_options : WhereClauseOptions :=
  { extend_where_clause := fun w => w ++ " Self: Reflect" }

/-- A sample `SerializationDataDef` input. -/
def sample_serialization_data : SerializationDataDef :=
  { as_serialization_data := fun path =>
      path ++ "::serde::SerializationData::new([].into_iter())" }

theorem impl_get_type_registration_deterministic_at_sample :
    impl_get_type_registration sample_meta sample_where_clause_options
        (some sample_serialization_data)
      = impl_get_type_registration sample_meta sample_where_clause_options
        (some sample_serialization_data) :=
  impl_get_type_registration_deterministic
    sample_meta sample_meta
    sample_where_clause_options sample_where_clause_options
    (some sample_serialization_data) (some sample_serialization_data)
    rfl rfl rfl

/-- C7: the emitter has no error path — for every combination of metadata,
where-clause options and optional serialization descriptor it returns a
token stream (a plain `GeneratedImpl`, not an `Option` or `Except`). -/
theorem impl_get_type_registration_total (meta : ReflectMeta)
    (wc : WhereClauseOptions) (sd : Option SerializationDataDef) :
    ∃ out : GeneratedImpl, impl_get_type_registration meta wc sd = out :=
  ⟨_, rfl⟩

/-- C8: for every input — in particular with no serialization descriptor,
no from-reflect auto-derive and no registration-data attributes — the
generated body inserts `ReflectFromPtr` type data unconditionally. -/
theorem reflect_from_ptr_always_inserted (meta : ReflectMeta)
    (wc : WhereClauseOptions) (sd : Option SerializationDataDef) :
    RegStmt.insertReflectFromPtr ∈
      (impl_get_type_registration meta wc sd).registration_body := by
  cases sd <;>
    cases h : meta.from_reflect_should_auto_derive <;>
      simp [impl_get_type_registration, GeneratedImpl.registration_body, h]

/-- C9: the generated body is always this fixed-order statement list:
create the registration with `TypeRegistration::of::<Self>()`, insert
`ReflectFromPtr`, insert `ReflectFromReflect` iff from-reflect auto-derive
is enabled, insert `SerializationData` iff the descriptor is present,
insert one `FromType` entry per registration-data identifier in attribute
order, and finally return the registration. -/
theorem registration_body_fixed_order (meta : ReflectMeta)
    (wc : WhereClauseOptions) (sd : Option SerializationDataDef) :
    (impl_get_type_registration meta wc sd).registration_body =
      [RegStmt.letRegistrationOfSelf, RegStmt.insertReflectFromPtr]
        ++ (if meta.from_reflect_should_auto_derive then
              [RegStmt.insertReflectFromReflect]
            else
              [])
        ++ (match sd with
            | some data =>
                [RegStmt.insertSerializationData
                  (data.as_serialization_data meta.bevy_reflect_path)]
            | none => [])
        ++ meta.registration_data_idents.map RegStmt.insertRegistrationData
        ++ [RegStmt.returnRegistration] := by
  cases sd <;>
    cases h : meta.from_reflect_should_auto_derive <;>
      simp [impl_get_type_registration, GeneratedImpl.registration_body, h]

end BevyReflectDerive

namespace ComponentHooksExample

/-- Model of `bevy::prelude::KeyCode` (not part of the given source): an
opaque key identity, only compared for equality by the example. -/
abbrev KeyCode := Nat

/-- Model of `bevy::prelude::Entity` (not part of the given source): an
opaque entity identity. -/
abbrev Entity := Nat

/-- Model of `bevy::ecs::component::ComponentId` (not part of the given
source): an opaque component identity, only printed by the example. -/
abbrev ComponentId := Nat

/-- `struct MyComponent(KeyCode)` from `component_hooks.rs`. -/
structure MyComponent where
  key : KeyCode
  deriving DecidableEq, Repr

/-- `struct MyComponentIndex(HashMap<KeyCode, Entity>)` from
`component_hooks.rs`, with the hash map modelled as an association list
(the example only uses `insert`, `remove` and iteration). -/
structure MyComponentIndex where
  map : List (KeyCode × Entity)
  deriving DecidableEq, Repr

/-- `HashMap::insert` on the index: record the new binding and drop any
previous binding of the same key. -/
def MyComponentIndex.insert (i : MyComponentIndex) (k : KeyCode)
    (v : Entity) : MyComponentIndex :=
  ⟨(k, v) :: i.map.filter (fun p => p.1 != k)⟩

/-- `HashMap::remove` on the index: drop the binding of the key. -/
def MyComponentIndex.remove (i : MyComponentIndex) (k : KeyCode) :
    MyComponentIndex :=
  ⟨i.map.filter (fun p => p.1 != k)⟩

/-- `HashMap::get` on the index (lookup of the binding of a key). -/
def MyComponentIndex.find (i : MyComponentIndex) (k : KeyCode) :
    Option Entity :=
  (i.map.find? (fun p => p.1 == k)).map Prod.snd

/-- `struct MyEvent` from `component_hooks.rs`. -/
inductive MyEvent where
  | mk
  deriving DecidableEq, Repr

/-- One `println!` message of the example, with the printed data kept
structured. -/
inductive LogEvent where
  /-- `"Component: .. added to: .. with value .."` -/
  | added (component_id : ComponentId) (entity : Entity) (value : KeyCode)
  /-- `"Current Index: .."` -/
  | currentIndex (index : MyComponentIndex)
  /-- `"Component: .. removed from: .. with value .."` -/
  | removed (component_id : ComponentId) (entity : Entity) (value : KeyCode)
  deriving DecidableEq, Repr

/-- Modelled from the spec: the `DeferredWorld` handed to a lifecycle hook
("this allows access to resource and component data as well as
`Commands`"). The parts the example touches are the `MyComponent` data per
entity, the `MyComponentIndex` resource, the sent `MyEvent`s, the console
output and the commands queued through `.commands()` (here: despawns). The
host entity store itself is not part of the given source. -/
structure DeferredWorld where
  components : List (Entity × MyComponent)
  my_component_index : MyComponentIndex
  sent_events : List MyEvent
  log : List LogEvent
  despawn_commands : List Entity
  deriving DecidableEq, Repr

/-- Modelled from the spec: `world.get::<MyComponent>(entity)` — the
component data of the entity, if present. -/
def DeferredWorld.get (w : DeferredWorld) (entity : Entity) :
    Option MyComponent :=
  (w.components.find? (fun p => p.1 == entity)).map Prod.snd

/-- The `on_add` closure of `setup`: unwrap the component value (`none`
models the `unwrap` panic), print it, insert `value ↦ entity` into the
`MyComponentIndex` resource and send a `MyEvent`. -/
def on_add_hook (world : DeferredWorld) (entity : Entity)
    (component_id : ComponentId) : Option DeferredWorld :=
  match world.get entity with
  | none => none
  | some c =>
    let value := c.key
    some { world with
      log := world.log ++ [LogEvent.added component_id entity value]
      my_component_index := world.my_component_index.insert value entity
      sent_events := world.sent_events ++ [MyEvent.mk] }

/-- The `on_insert` closure of `setup`: print the current index. -/
def on_insert_hook (world : DeferredWorld) (_entity : Entity)
    (_component_id : ComponentId) : Option DeferredWorld :=
  some { world with
    log := world.log ++ [LogEvent.currentIndex world.my_component_index] }

/-- The `on_remove` closure of `setup`: unwrap the component value (`none`
models the `unwrap` panic), print it, remove its entry from the
`MyComponentIndex` resource and queue a despawn command for the entity. -/
def on_remove_hook (world : DeferredWorld) (entity : Entity)
    (component_id : ComponentId) : Option DeferredWorld :=
  match world.get entity with
  | none => none
  | some c =>
    let value := c.key
    some { world with
      log := world.log ++ [LogEvent.removed component_id entity value]
      my_component_index := world.my_component_index.remove value
      despawn_commands := world.despawn_commands ++ [entity] }

/-- A lifecycle hook: `DeferredWorld`, triggering entity, component id;
`none` models a panic inside the hook. -/
abbrev HookFn := DeferredWorld → Entity → ComponentId → Option DeferredWorld

/-- Modelled from the spec: the three lifecycle hook slots of the host
entity store for one component type ("There are 3 component lifecycle
hooks: `on_add`, `on_insert` and `on_remove`"). -/
structure ComponentHooks where
  on_add : Option HookFn
  on_insert : Option HookFn
  on_remove : Option HookFn

/-- Modelled from the spec: `.on_add(..)` of the hook-registration
builder — fill the add slot. -/
def register_on_add (h : ComponentHooks) (f : HookFn) : ComponentHooks :=
  { h with on_add := some f }

/-- Modelled from the spec: `.on_insert(..)` of the hook-registration
builder — fill the insert slot. -/
def register_on_insert (h : ComponentHooks) (f : HookFn) : ComponentHooks :=
  { h with on_insert := some f }

/-- Modelled from the spec: `.on_remove(..)` of the hook-registration
builder — fill the remove slot. -/
def register_on_remove (h : ComponentHooks) (f : HookFn) : ComponentHooks :=
  { h with on_remove := some f }

/-- Modelled from the spec: the slice of the host `World` the example's
`setup` touches — the hook slots registered for `MyComponent`. -/
structure World where
  my_component_hooks : ComponentHooks

/-- The example's `setup` system: chain
`world.register_component_hooks::<MyComponent>().on_add(..).on_insert(..).on_remove(..)`
with the three closures above. -/
def setup (world : World) : World :=
  let hooks :=
    register_on_remove
      (register_on_insert
        (register_on_add world.my_component_hooks on_add_hook)
        on_insert_hook)
      on_remove_hook
  { world with my_component_hooks := hooks }

/-- C3: `setup` registers exactly the three lifecycle hook slots for
`MyComponent` — `on_add`, `on_insert` and `on_remove`, each with its
closure — and the hook record has no other kind of slot. -/
theorem setup_registers_exactly_three_hooks (world : World) :
    (setup world).my_component_hooks =
      { on_add := some on_add_hook
        on_insert := some on_insert_hook
        on_remove := some on_remove_hook } :=
  rfl

theorem on_add_hook_eq (w : DeferredWorld) (entity : Entity)
    (component_id : ComponentId) (c : MyComponent)
    (h : w.get entity = some c) :
    on_add_hook w entity component_id = some { w with
      log := w.log ++ [LogEvent.added component_id entity c.key]
      my_component_index := w.my_component_index.insert c.key entity
      sent_events := w.sent_events ++ [MyEvent.mk] } := by
  unfold on_add_hook
  rw [h]

theorem on_remove_hook_eq (w : DeferredWorld) (entity : Entity)
    (component_id : ComponentId) (c : MyComponent)
    (h : w.get entity = some c) :
    on_remove_hook w entity component_id = some { w with
      log := w.log ++ [LogEvent.removed component_id entity c.key]
      my_component_index := w.my_component_index.remove c.key
      despawn_commands := w.despawn_commands ++ [entity] } := by
  unfold on_remove_hook
  rw [h]

theorem find?_filter_ne_none (l : List (KeyCode × Entity)) (k : KeyCode) :
    (l.filter (fun p => p.1 != k)).find? (fun p => p.1 == k) = none := by
  induction l with
  | nil => rfl
  | cons a t ih =>
    by_cases h : a.1 = k
    · simp [List.filter_cons, h, ih]
    · simp [List.filter_cons, h, List.find?_cons, ih]

theorem find_insert_self (i : MyComponentIndex) (k : KeyCode) (v : Entity) :
    (i.insert k v).find k = some v := by
  simp [MyComponentIndex.insert, MyComponentIndex.find, List.find?_cons]

theorem find_remove_self (i : MyComponentIndex) (k : KeyCode) :
    (i.remove k).find k = none := by
  simp [MyComponentIndex.remove, MyComponentIndex.find, find?_filter_ne_none]

/-- C4: both unwrapping hooks are panic-free whenever the triggering
entity still carries `MyComponent` when the hook runs: under that
precondition `world.get` is `some`, the `unwrap`s cannot hit `None`, and
each hook returns a world (never the `none` that models a panic). -/
theorem hook_unwraps_never_panic (w : DeferredWorld) (entity : Entity)
    (component_id : ComponentId) (h : (w.get entity).isSome) :
    (on_add_hook w entity component_id).isSome ∧
    (on_remove_hook w entity component_id).isSome := by
  cases hg : w.get entity with
  | none => rw [hg] at h; simp at h
  | some c =>
    constructor <;> simp [on_add_hook, on_remove_hook, hg]

/-- A sample hook invocation state: entity `1` carries
`MyComponent(7)` and the index resource is empty. -/
def sample_hook_world : DeferredWorld :=
  { components := [(1, MyComponent.mk 7)]
    my_component_index := ⟨[]⟩
    sent_events := []
    log := []
    despawn_commands := [] }

theorem hook_unwraps_never_panic_at_sample :
    (on_add_hook sample_hook_world 1 0).isSome ∧
    (on_remove_hook sample_hook_world 1 0).isSome :=
  hook_unwraps_never_panic sample_hook_world 1 0 (by decide)

/-- C5: the example state is the map-backed `MyComponentIndex`; when the
triggering entity carries `MyComponent c`, the `on_add` hook's resulting
index is the old index with the binding `c.key ↦ entity` inserted (so the
key looks up to the entity), and the `on_remove` hook's resulting index is
the old index with the entry for `c.key` removed (so the key no longer
looks up to anything). -/
theorem hooks_update_component_index (w : DeferredWorld) (entity : Entity)
    (component_id : ComponentId) (c : MyComponent)
    (h : w.get entity = some c) :
    (∃ w₁, on_add_hook w entity component_id = some w₁ ∧
      w₁.my_component_index = w.my_component_index.insert c.key entity ∧
      w₁.my_component_index.find c.key = some entity) ∧
    (∃ w₂, on_remove_hook w entity component_id = some w₂ ∧
      w₂.my_component_index = w.my_component_index.remove c.key ∧
      w₂.my_component_index.find c.key = none) :=
  ⟨⟨_, on_add_hook_eq w entity component_id c h, rfl,
      find_insert_self w.my_component_index c.key entity⟩,
    ⟨_, on_remove_hook_eq w entity component_id c h, rfl,
      find_remove_self w.my_component_index c.key⟩⟩

theorem hooks_update_component_index_at_sample :
    (∃ w₁, on_add_hook sample_hook_world 1 0 = some w₁ ∧
      w₁.my_component_index =
        sample_hook_world.my_component_index.insert (MyComponent.mk 7).key 1 ∧
      w₁.my_component_index.find (MyComponent.mk 7).key = some 1) ∧
    (∃ w₂, on_remove_hook sample_hook_world 1 0 = some w₂ ∧
      w₂.my_component_index =
        sample_hook_world.my_component_index.remove (MyComponent.mk 7).key ∧
      w₂.my_component_index.find (MyComponent.mk 7).key = none) :=
  hooks_update_component_index sample_hook_world 1 0 (MyComponent.mk 7)
    (by decide)

/-- C10: beyond updating the index, the `on_remove` hook issues a despawn
command for every entity it runs on (with the component still present), so
removing `MyComponent` destroys the entity itself. -/
theorem on_remove_despawns_entity (w : DeferredWorld) (entity : Entity)
    (component_id : ComponentId) (c : MyComponent)
    (h : w.get entity = some c) :
    ∃ w', on_remove_hook w entity component_id = some w' ∧
      w'.despawn_commands = w.despawn_commands ++ [entity] :=
  ⟨_, on_remove_hook_eq w entity component_id c h, rfl⟩

theorem on_remove_despawns_entity_at_sample :
    ∃ w', on_remove_hook sample_hook_world 1 0 = some w' ∧
      w'.despawn_commands = sample_hook_world.despawn_commands ++ [1] :=
  on_remove_despawns_entity sample_hook_world 1 0 (MyComponent.mk 7)
    (by decide)

end ComponentHooksExample
